import Mathlib

/-!
Shallow embedding of the two Ansible modules of this repository:
`lib/ansible/modules/cloud/anypoint/ap_exchange_asset.py` (the Exchange asset
module) and `lib/ansible/modules/cloud/mulesoft/ap_account_environment.py`
(the account environment module), together with theorems about their
reconciliation logic.

External effects (the anypoint-cli binary, the maven binary, the HTTP
endpoints) are modelled by explicit "world" records supplying the observable
outcome of each read, and each run is a pure function from parameters and
world to either a fatal failure (`Except.error`, Python's
`module.fail_json`) or the ordered list of mutating platform calls issued
plus the reported result (`module.exit_json`).

Functions living in `ansible/module_utils/cloud/...` (`ap_common`,
`ap_exchange_common`) are not part of this repository snapshot; each such
definition carries a doc comment starting with `Modelled from the spec:` and
follows the spec's description of it.
-/

namespace ApAnypoint

/-- The result of `module.run_command`: exit code and captured output. -/
structure RunResult where
  code : Int
  out : String
deriving DecidableEq

/-- The `maven` suboptions of `ap_exchange_asset` (argument spec `maven_spec`,
lines 468-473). -/
structure MavenParams where
  sources : Option String
  settings : Option String
  pom : Option String
  arguments : List String
deriving DecidableEq

/-- The user-declared parameters of the `ap_exchange_asset` module (argument
spec `module_args`, lines 475-493).  `state` ranges over
present/deprecated/absent and `type` over the eight declared asset types;
AnsibleModule rejects anything else before `run_module` runs. -/
structure AssetParams where
  name : String
  state : String
  bearer : String
  host : String
  organization : String
  organization_id : String
  type : String
  group_id : String
  asset_id : String
  asset_version : String
  api_version : String
  main_file : Option String
  file_path : Option String
  tags : List String
  description : Option String
  icon : Option String
  maven : Option MavenParams
deriving DecidableEq

/-- One asset record of the `data.assets` payload of the Exchange GraphQL
query, restricted to the fields the module reads. -/
structure ExchangeAsset where
  assetId : String
  groupId : String
  version : String
  type : String
  name : String
  description : Option String
  icon : Option String
  tags : List String
  deprecated : Bool
deriving DecidableEq, Inhabited

/-- The response of `ap_exchange_common.look_exchange_asset_with_graphql`:
either an `errors` array (only its first element's numeric `status` and
`message` are ever read) or a `data.assets` list. -/
inductive GraphQLResponse where
  | errors (status : Int) (message : String)
  | data (assets : List ExchangeAsset)
deriving DecidableEq

/-- Embeds `look_asset_on_exchange` (ap_exchange_asset.py, lines 226-242).  A query
error with status 404 yields `none` (asset not found); any other error status
is fatal.  On a data payload Python reads `output['data']['assets'][0]`
unconditionally, so an empty list raises `IndexError` (modelled as fatal);
the head record counts as found only when asset id, group id, version and
type all equal the requested values. -/
def look_asset_on_exchange (p : AssetParams) (resp : GraphQLResponse) :
    Except String (Option String) :=
  match resp with
  | .errors status message =>
      if status != 404 then
        Except.error
          (("[look_asset_on_exchange] Error looking for asset on exchange: ") ++ message)
      else
        Except.ok none
  | .data assets =>
      match assets with
      | [] => Except.error ("IndexError: list index out of range")
      | item :: _ =>
          if p.asset_id == item.assetId
              && p.group_id == item.groupId
              && p.asset_version == item.version
              && p.type == item.type then
            Except.ok (some item.assetId)
          else
            Except.ok none

/-- The record `look_asset_on_exchange` matched: the head of the
`data.assets` payload whenever it agrees with the requested keys and type. -/
def found_record (p : AssetParams) (resp : GraphQLResponse) : Option ExchangeAsset :=
  match resp with
  | .data (item :: _) =>
      if p.asset_id == item.assetId
          && p.group_id == item.groupId
          && p.asset_version == item.version
          && p.type == item.type then
        some item
      else none
  | _ => none

/-- The dict returned by `ap_exchange_common.analyze_asset`. -/
structure AnalyzeResult where
  must_update : Bool
  must_update_name : Bool
  must_update_icon : Bool
  must_update_description : Bool
  must_update_tags : Bool
  deprecated : Bool
deriving DecidableEq

/-- Two tag lists denote the same tag set: membership in both directions
(order and multiplicity do not matter). -/
def sameTagSet (a b : List String) : Bool :=
  a.all b.contains && b.all a.contains

/-- Modelled from the spec: `ap_exchange_common.analyze_asset` lives in
`lib/ansible/module_utils/cloud/anypoint/ap_exchange_common.py`, which is not
part of this repository snapshot.  Per spec §4.2 it computes per-field update
flags "by strict inequality between desired and observed values for each
mutable field (name, description, icon, tag set — set comparison ignoring
order; membership, not ordering, matters)" and also reads the asset's own
deprecated sub-state; `must_update` aggregates the per-field flags. -/
def analyze_asset (observed : ExchangeAsset) (name : String)
    (description icon : Option String) (tags : List String) : AnalyzeResult :=
  let mun := name != observed.name
  let mud := description != observed.description
  let mui := icon != observed.icon
  let mutTags := !sameTagSet tags observed.tags
  { must_update := mun || mui || mud || mutTags
    must_update_name := mun
    must_update_icon := mui
    must_update_description := mud
    must_update_tags := mutTags
    deprecated := observed.deprecated }

/-- The dict returned by the asset module's `get_context`
(ap_exchange_asset.py, lines 245-278). -/
structure AssetContext where
  do_nothing : Bool
  exists_ : Bool
  exchange_must_update : Bool
  exchange_must_update_name : Bool
  exchange_must_update_icon : Bool
  exchange_must_update_description : Bool
  exchange_must_update_tags : Bool
  deprecated : Bool
deriving DecidableEq

/-- Embeds `get_context` of ap_exchange_asset.py (lines 245-278).  The observed
record that Python's `analyze_asset` re-reads from the platform is the same
record the GraphQL lookup returned, so it is taken from the response. -/
def get_context (p : AssetParams) (resp : GraphQLResponse) :
    Except String AssetContext :=
  match look_asset_on_exchange p resp with
  | Except.error e => Except.error e
  | Except.ok asset_id =>
    let rv : AssetContext :=
      { do_nothing := false
        exists_ := asset_id.isSome
        exchange_must_update := false
        exchange_must_update_name := false
        exchange_must_update_icon := false
        exchange_must_update_description := false
        exchange_must_update_tags := false
        deprecated := false }
    if p.state == "present" || p.state == "deprecated" then
      if rv.exists_ then
        let observed := (found_record p resp).getD default
        let result := analyze_asset observed p.name p.description p.icon p.tags
        let rv := { rv with
          exchange_must_update := result.must_update
          exchange_must_update_name := result.must_update_name
          exchange_must_update_icon := result.must_update_icon
          exchange_must_update_description := result.must_update_description
          exchange_must_update_tags := result.must_update_tags
          deprecated := result.deprecated }
        if p.state == "present" then
          Except.ok { rv with do_nothing := !result.must_update && !result.deprecated }
        else
          Except.ok { rv with do_nothing := result.deprecated }
      else
        Except.ok rv
    else if p.state == "absent" then
      Except.ok { rv with do_nothing := !rv.exists_ }
    else
      Except.ok rv

/-- Modelled from the spec: `ap_common.execute_anypoint_cli` is in a
module_utils file absent from this snapshot.  Per spec §6, a CLI invocation
returns "exit code 0 ⇒ success with stdout as payload; non-zero ⇒ failure
with stderr/stdout as message"; the wrapper prepends its caller tag to the
fatal message (the pattern of the in-reprepository wrappers). -/
def execute_anypoint_cli (exec : String → RunResult) (tag cmd : String) :
    Except String String :=
  let result := exec cmd
  if result.code != 0 then Except.error (tag ++ (" ") ++ result.out)
  else Except.ok result.out

/-- One mutating platform call issued by the asset module, in issue order.
`cli` records the command string handed to `ap_common.execute_anypoint_cli`;
`maven` records the goal string handed to `execute_maven` (which prepends the
maven binary path before running it); the remaining constructors are the
`ap_exchange_common` platform calls. -/
inductive AssetCall where
  | cli (cmd : String)
  | maven (cmd : String)
  | set_asset_name
  | modify_asset
  | delete_asset
deriving DecidableEq

/-- The environment a single `ap_exchange_asset` run interacts with:
resolved binary paths, check mode, the GraphQL lookup's response, the
exit-code/output of every executed command, and the outputs of the
`ap_exchange_common` platform calls (modelled from the spec as calls that
succeed with world-supplied output). -/
structure AssetWorld where
  anypointcli_path : Option String
  maven_path : Option String
  check_mode : Bool
  graphql : GraphQLResponse
  exec : String → RunResult
  modify_out : String
  delete_out : String

/-- Embeds `get_maven_path` combined with `execute_maven` (ap_exchange_asset.py,
lines 208-219): the maven binary path is prepended to the goal string and a
non-zero exit is fatal with the `[execute_maven]` tag. -/
def execute_maven (w : AssetWorld) (cmd : String) : Except String String :=
  let final_cmd := (w.maven_path.getD ("")) ++ (" ") ++ cmd
  let result := w.exec final_cmd
  if result.code != 0 then Except.error (("[execute_maven] ") ++ result.out)
  else Except.ok result.out

/-- Embeds `get_tmp_dir` (lines 222-223). -/
def get_tmp_dir : String := "/tmp"

/-- Embeds `get_settings_xml_path` (lines 281-282). -/
def get_settings_xml_path (p : AssetParams) : String :=
  get_tmp_dir ++ ("/") ++ p.group_id ++ ("_") ++ p.asset_id ++ ("_settings.xml")

/-- Embeds `get_distribution_repository_url` (lines 320-327). -/
def get_distribution_repository_url (p : AssetParams) : String :=
  ("https://maven.") ++ p.host ++ ("/api/v1/organizations/") ++ p.group_id ++ ("/maven")

/-- The extension part of Python's `os.path.splitext(path)[1]` (line 433):
the suffix of the last path component starting at its last dot, unless every
character of the component before that dot is itself a dot. -/
def splitext_ext (path : String) : String :=
  let base := ((path.toList).reverse.takeWhile (fun c => c != ('/' : Char))).reverse
  match (base.reverse).findIdx? (fun c => c == ('.' : Char)) with
  | none => ""
  | some j =>
      let k := base.length - 1 - j
      if (base.take k).any (fun c => c != ('.' : Char)) then
        String.mk (base.drop k)
      else ""

/-- Modelled from the spec: `ap_exchange_common.get_asset_identifier` is not
in this snapshot; spec §8 says composite identifier formatting "is a pure,
order-preserving concatenation of group, asset, and version", separated here
by the CLI's `/`. -/
def get_asset_identifier (group_id asset_id asset_version : String) : String :=
  group_id ++ ("/") ++ asset_id ++ ("/") ++ asset_version

/-- Embeds `upload_exchange_asset` (ap_exchange_asset.py, lines 364-463), returning
the ordered list of mutating platform calls it issues together with its
return value (always the literal `Asset uploaded`).

Local-disk side effects (`create_settings_xml`, `modify_pom_file`) touch no
platform state and are not recorded.  `ap_exchange_common.set_asset_name` and
`modify_exchange_asset` are modelled from the spec (§4.3) as platform calls
that succeed; the final `modify_exchange_asset` at line 458 runs on every
path that completes.  Python raises `TypeError` when the deploy-file branch
is reached with `file_path = None` (lines 427/433) and when the
sources-build branch is reached with `maven = None` (line 387); both are
modelled as fatal errors. -/
def upload_exchange_asset (w : AssetWorld) (p : AssetParams)
    (cmd_base asset_identifier : String) : Except String (List AssetCall × String) :=
  let return_value := "Asset uploaded"
  if p.type == "custom" || p.type == "oas" || p.type == "wsdl" then
    let upload_cmd := cmd_base ++ (" upload") ++ (" --name \"") ++ p.name ++ ("\"")
    let upload_cmd :=
      match p.main_file with
      | some mf => upload_cmd ++ (" --mainFile \"") ++ mf ++ ("\"")
      | none => upload_cmd
    let upload_cmd := upload_cmd ++ (" --classifier \"") ++ p.type ++ ("\"")
        ++ (" \"") ++ asset_identifier ++ ("\"")
    let upload_cmd :=
      match p.file_path with
      | some fp => upload_cmd ++ (" \"") ++ fp ++ ("\"")
      | none => upload_cmd
    match execute_anypoint_cli w.exec ("[upload_exchange_asset]") upload_cmd with
    | Except.error e => Except.error e
    | Except.ok _ =>
        Except.ok ([AssetCall.cli upload_cmd, AssetCall.modify_asset], return_value)
  else if p.type == "example" || p.type == "template" || p.type == "connector"
      || p.type == "extension" || p.type == "policy" then
    if (p.type == "example" || p.type == "template") && p.file_path == none then
      match p.maven with
      | none => Except.error ("TypeError: NoneType object is not subscriptable")
      | some maven =>
        match maven.sources with
        | some sources =>
            let deploy_cmd := "-U -B clean deploy -DskipTests -DattachMuleSources=true"
            let deploy_cmd :=
              match maven.settings with
              | some gs => deploy_cmd ++ (" -gs \"") ++ gs ++ ("\"")
              | none => deploy_cmd
            let deploy_cmd := deploy_cmd ++ (" -s \"") ++ get_settings_xml_path p ++ ("\"")
            let source_pom :=
              match maven.pom with
              | some pom => pom
              | none => sources ++ ("/pom.xml")
            let deploy_cmd := deploy_cmd ++ (" -f \"") ++ source_pom ++ ("\"")
            let deploy_cmd :=
              if maven.arguments.isEmpty then deploy_cmd
              else deploy_cmd ++ String.intercalate (" -D") maven.arguments
            let deployment_repository := get_distribution_repository_url p
            let deploy_cmd := deploy_cmd ++ (" -DaltDeploymentRepository=\"")
                ++ ("Repository::default::") ++ deployment_repository ++ ("\"")
            match execute_maven w deploy_cmd with
            | Except.error e => Except.error e
            | Except.ok _ =>
                Except.ok ([AssetCall.maven deploy_cmd, AssetCall.modify_asset], return_value)
        | none =>
            Except.error
              (("[upload_exchange_asset] asset type \"template\" or \"example\" requires ")
                ++ ("either a project directoryto build it or a file to just upload it"))
    else
      match p.file_path with
      | none => Except.error ("TypeError: expected str, bytes or os.PathLike object, not NoneType")
      | some file_path =>
        let deploy_cmd := "deploy:deploy-file"
        let deploy_cmd := deploy_cmd ++ (" -s \"") ++ get_settings_xml_path p ++ ("\"")
        let deploy_cmd := deploy_cmd ++ (" -Dfile=\"") ++ file_path ++ ("\"")
        let deploy_cmd := deploy_cmd ++ (" -DrepositoryId=Repository")
        let deploy_cmd := deploy_cmd ++ (" -DartifactId=") ++ p.asset_id
        let deploy_cmd := deploy_cmd ++ (" -DgroupId=") ++ p.group_id
        let deploy_cmd := deploy_cmd ++ (" -Dversion=") ++ p.asset_version
        let file_extension := splitext_ext file_path
        let classifier_flag : Except String String :=
          if p.type == "connector" && file_extension == ".zip" then
            Except.ok (" -Dclassifier=studio-plugin")
          else if p.type == "extension" && file_extension == ".jar" then
            Except.ok (" -Dclassifier=mule-plugin")
          else if p.type == "policy" && file_extension == ".jar" then
            Except.ok (" -Dclassifier=mule-policy")
          else if p.type == "example" && file_extension == ".jar" then
            Except.ok (" -Dclassifier=mule-application-example")
          else if p.type == "template" && file_extension == ".jar" then
            Except.ok (" -Dclassifier=mule-application-template")
          else
            Except.error
              (("[upload_exchange_asset] invalid file extension for ") ++ p.type
                ++ (" asset type (only supported .zip for mule 3 and .jar for mule 4)"))
        match classifier_flag with
        | Except.error e => Except.error e
        | Except.ok cls =>
          let deploy_cmd := deploy_cmd ++ cls
          let deploy_cmd := deploy_cmd ++ (" -Durl=") ++ get_distribution_repository_url p
          match execute_maven w deploy_cmd with
          | Except.error e => Except.error e
          | Except.ok _ =>
              Except.ok ([AssetCall.maven deploy_cmd, AssetCall.set_asset_name,
                AssetCall.modify_asset], return_value)
  else
    Except.ok ([AssetCall.modify_asset], return_value)

/-- The asset module's reported result dict (`changed` flag and `msg`). -/
structure AssetResult where
  changed : Bool
  msg : String
deriving DecidableEq

/-- Python's `str.replace` with arguments newline and the empty string, as
used at ap_exchange_asset.py line 586 and ap_account_environment.py line 167:
every newline character removed. -/
def strip_nl (s : String) : String :=
  String.mk (s.toList.filter (fun c => c != ('\n' : Char)))

/-- The empty-string-to-None normalisation of `run_module`
(ap_exchange_asset.py, lines 520-531). -/
def normalize_params (p : AssetParams) : AssetParams :=
  let p := if p.main_file == some ("") then { p with main_file := none } else p
  let p := if p.file_path == some ("") then { p with file_path := none } else p
  let p := if p.icon == some ("") then { p with icon := none } else p
  let p := if p.description == some ("") then { p with description := none } else p
  match p.maven with
  | some m =>
      if m.sources == some ("") then { p with maven := some { m with sources := none } } else p
  | none => p

/-- Embeds `module.params['maven'].get('project_dir')` of run_module line 536: the
`maven` suboptions spec declares only `sources`, `settings`, `pom` and
`arguments`, and AnsibleModule rejects undeclared suboptions, so the key
`project_dir` is never present and this lookup always yields `None`. -/
def maven_get_project_dir (_m : MavenParams) : Option String := none

/-- Embeds `run_module` of ap_exchange_asset.py (lines 466-589): from parameters and
world to either a fatal failure or the ordered list of mutating platform
calls plus the reported result.  When the state is `present`, the asset
exists, is not deprecated and needs no update, Python reaches line 586 with
the name `output` unbound and raises `NameError`; that point is unreachable
because `do_nothing` exits earlier, but it is embedded faithfully. -/
def asset_run_module (p0 : AssetParams) (w : AssetWorld) :
    Except String (List AssetCall × AssetResult) :=
  let result : AssetResult := { changed := false, msg := "No action taken" }
  match w.anypointcli_path with
  | none => Except.error ("[run_module] anypoint-cli binary not present on host")
  | some cli_path =>
  match w.maven_path with
  | none => Except.error ("[run_module] maven binary not present on host")
  | some _ =>
  if w.check_mode then Except.ok ([], result) else
  let cmd_base := cli_path ++ (" --bearer=\"") ++ p0.bearer ++ ("\"")
      ++ (" --host=\"") ++ p0.host ++ ("\"")
      ++ (" --organization=\"") ++ p0.organization ++ ("\"")
      ++ (" exchange asset")
  let p := normalize_params p0
  if p.state == "present" && (p.type == "example" || p.type == "template")
      && (match p.maven with
          | none => true
          | some m => maven_get_project_dir m != none) then
    Except.error ("asset type template or example requires a project directory to build it")
  else if p.state == "present"
      && (p.type == "oas" || p.type == "wsdl" || p.type == "connector"
          || p.type == "extension" || p.type == "policy")
      && p.file_path == none then
    Except.error
      (("[run_module] asset type oas, wsdl, connector, extension or policy ")
        ++ ("requires a file path to upload it"))
  else
  match get_context p w.graphql with
  | Except.error e => Except.error e
  | Except.ok context =>
  if context.do_nothing then Except.ok ([], result) else
  let asset_identifier := get_asset_identifier p.group_id p.asset_id p.asset_version
  if p.state == "present" then
    if context.exists_ == false then
      match upload_exchange_asset w p cmd_base asset_identifier with
      | Except.error e => Except.error e
      | Except.ok (calls, output) =>
          Except.ok (calls, { changed := true, msg := strip_nl output })
    else
      if context.deprecated then
        let undeprecate_cmd := cmd_base ++ (" undeprecate \"") ++ asset_identifier ++ ("\"")
        match execute_anypoint_cli w.exec ("[run_module]") undeprecate_cmd with
        | Except.error e => Except.error e
        | Except.ok out1 =>
            if context.exchange_must_update then
              Except.ok ([AssetCall.cli undeprecate_cmd, AssetCall.modify_asset],
                { changed := true, msg := strip_nl w.modify_out })
            else
              Except.ok ([AssetCall.cli undeprecate_cmd],
                { changed := true, msg := strip_nl out1 })
      else
        if context.exchange_must_update then
          Except.ok ([AssetCall.modify_asset], { changed := true, msg := strip_nl w.modify_out })
        else
          Except.error ("NameError: name output is not defined")
  else if p.state == "deprecated" then
    match (if context.exists_ == false then
        upload_exchange_asset w p cmd_base asset_identifier
      else Except.ok ([], "")) with
    | Except.error e => Except.error e
    | Except.ok (calls1, _) =>
      let calls2 := if context.exchange_must_update then [AssetCall.modify_asset] else []
      let deprecate_cmd := cmd_base ++ (" deprecate \"") ++ asset_identifier ++ ("\"")
      match execute_anypoint_cli w.exec ("[run_module]") deprecate_cmd with
      | Except.error e => Except.error e
      | Except.ok out =>
          Except.ok (calls1 ++ calls2 ++ [AssetCall.cli deprecate_cmd],
            { changed := true, msg := strip_nl out })
  else if p.state == "absent" then
    Except.ok ([AssetCall.delete_asset], { changed := true, msg := strip_nl w.delete_out })
  else
    Except.error ("NameError: name output is not defined")

/-- The user-declared parameters of the `ap_account_environment` module
(argument spec `module_args`, ap_account_environment.py lines 250-257);
`state` ranges over present/absent and `type` over
design/sandbox/production. -/
structure EnvParams where
  name : String
  state : String
  bearer : String
  host : String
  organization : String
  type : String
deriving DecidableEq

/-- The fields of the `environment describe --output json` record the module
reads: `ID` and `Client ID`. -/
structure EnvRecord where
  ID : String
  clientID : String
deriving DecidableEq

/-- The outcome of an `environment describe` CLI call: either exit code 0
with output that parsed to a record, or a non-zero exit code with its
output. -/
inductive DescribeResult where
  | parsed (record : EnvRecord)
  | failed (code : Int) (out : String)
deriving DecidableEq

/-- Embeds `get_environment` (ap_account_environment.py, lines 157-172).  Exit 0
yields the parsed record; exit 255 whose output with newlines removed equals
the sentinel `Error: Environment not found` yields the empty record (`none`
models Python's `{}`); every other outcome is fatal with the command
output as message. -/
def get_environment (d : DescribeResult) : Except String (Option EnvRecord) :=
  let error_message := "Error: Environment not found"
  match d with
  | .parsed record => Except.ok (some record)
  | .failed code out =>
      if code == 255 && (strip_nl out == error_message) then
        Except.ok none
      else
        Except.error out

/-- A mutating CLI call issued by the environment module. -/
inductive EnvCall where
  | create (cmd : String)
  | delete (cmd : String)
deriving DecidableEq

/-- The environment a single `ap_account_environment` run interacts with:
the CLI binary path, check mode, the outcome of the describe issued by
`get_context` (`describe1`) and of the re-describe after create
(`describe2`), the profile lookup of the organization name (`org_id`,
`none` when the caller is not a member), the accounts API's
`client_secret` for an organization/client pair (the field may be absent
from the response), and the exit-code/output of every executed command. -/
structure EnvWorld where
  anypointcli_path : Option String
  check_mode : Bool
  describe1 : DescribeResult
  describe2 : DescribeResult
  org_id : Option String
  client_secret_of : String → String → Option String
  exec : String → RunResult

/-- The environment module's own `execute_anypoint_cli` (lines 119-124). -/
def env_execute_anypoint_cli (exec : String → RunResult) (cmd : String) :
    Except String String :=
  let result := exec cmd
  if result.code != 0 then Except.error result.out else Except.ok result.out

/-- Embeds `get_org_id` (lines 142-154): resolves the organization name against the
caller's profile memberships (an external HTTP call the world answers);
fatal when the name is not among them. -/
def get_org_id (p : EnvParams) (w : EnvWorld) : Except String String :=
  match w.org_id with
  | some i => Except.ok i
  | none => Except.error (("Business Group \x7b") ++ p.organization ++ ("\x7d not found"))

/-- Embeds `get_env_client_secret` (lines 175-181): fetches the client record over
HTTP and returns its `client_secret` field, which may be absent. -/
def get_env_client_secret (w : EnvWorld) (org_id client_id : String) : Option String :=
  w.client_secret_of org_id client_id

/-- The dict returned by the environment module's `get_context`
(lines 184-207). -/
structure EnvContext where
  do_nothing : Bool
  id : Option String
  client_id : Option String
  client_secret : Option String
deriving DecidableEq

/-- Embeds `get_context` of ap_account_environment.py (lines 184-207). -/
def env_get_context (p : EnvParams) (w : EnvWorld) : Except String EnvContext :=
  match get_environment w.describe1 with
  | Except.error e => Except.error e
  | Except.ok resp_json =>
    let rv : EnvContext :=
      match resp_json with
      | some r =>
          { do_nothing := false, id := some r.ID, client_id := some r.clientID,
            client_secret := none }
      | none => { do_nothing := false, id := none, client_id := none, client_secret := none }
    if p.state == "absent" then
      Except.ok { rv with do_nothing := rv.id == none }
    else if p.state == "present" then
      if rv.id == none then
        Except.ok { rv with do_nothing := false }
      else
        match get_org_id p w with
        | Except.error e => Except.error e
        | Except.ok org_id =>
          let client_secret := get_env_client_secret w org_id (rv.client_id.getD (""))
          Except.ok { rv with client_secret := client_secret, do_nothing := true }
    else
      Except.ok rv

/-- The record `create_environment`/`delete_environment` return
(lines 211-216 / 233-238); `msg` is always set before returning. -/
structure EnvOut where
  id : Option String
  client_id : Option String
  client_secret : Option String
  msg : String
deriving DecidableEq

/-- Embeds `create_environment` (lines 210-229).  After the create call Python
re-describes the environment and indexes `resp_json['ID']` directly, so an
empty record raises `KeyError` (modelled as fatal). -/
def create_environment (p : EnvParams) (w : EnvWorld) (cmd_base : String) :
    Except String (EnvCall × EnvOut) :=
  let cmd_final := cmd_base ++ (" create --type ") ++ p.type ++ (" \"") ++ p.name ++ ("\"")
  match env_execute_anypoint_cli w.exec cmd_final with
  | Except.error e => Except.error e
  | Except.ok _ =>
    match get_environment w.describe2 with
    | Except.error e => Except.error e
    | Except.ok none => Except.error ("KeyError: ID")
    | Except.ok (some r) =>
      match get_org_id p w with
      | Except.error e => Except.error e
      | Except.ok org_id =>
        let client_secret := get_env_client_secret w org_id r.clientID
        Except.ok (EnvCall.create cmd_final,
          { id := some r.ID, client_id := some r.clientID,
            client_secret := client_secret, msg := "environment created" })

/-- Embeds `delete_environment` (lines 232-245): issues the delete and returns a
record whose identifier fields are all `None`. -/
def delete_environment (p : EnvParams) (w : EnvWorld) (cmd_base : String) :
    Except String (EnvCall × EnvOut) :=
  let cmd_final := cmd_base ++ (" delete") ++ (" \"") ++ p.name ++ ("\"")
  match env_execute_anypoint_cli w.exec cmd_final with
  | Except.error e => Except.error e
  | Except.ok _ =>
      Except.ok (EnvCall.delete cmd_final,
        { id := none, client_id := none, client_secret := none,
          msg := "environment deleted" })

/-- The environment module's reported result dict. -/
structure EnvResult where
  changed : Bool
  id : Option String
  client_id : Option String
  client_secret : Option String
  msg : String
deriving DecidableEq

/-- Embeds `run_module` of ap_account_environment.py (lines 248-308): from
parameters and world to either a fatal failure or the ordered list of
mutating CLI calls plus the reported result. -/
def env_run_module (p : EnvParams) (w : EnvWorld) :
    Except String (List EnvCall × EnvResult) :=
  let result : EnvResult :=
    { changed := false, id := none, client_id := none, client_secret := none,
      msg := "No action taken" }
  match w.anypointcli_path with
  | none => Except.error ("anypoint-cli binary not present on host")
  | some cli_path =>
  if w.check_mode then Except.ok ([], result) else
  let cmd_base := cli_path ++ (" --bearer=\"") ++ p.bearer ++ ("\"")
      ++ (" --organization=\"") ++ p.organization ++ ("\"")
      ++ (" --host=\"") ++ p.host ++ ("\"")
      ++ (" account environment")
  match env_get_context p w with
  | Except.error e => Except.error e
  | Except.ok context =>
  let result := { result with
    id := context.id
    client_id := context.client_id
    client_secret := context.client_secret }
  if context.do_nothing then Except.ok ([], result) else
  if p.state == "present" then
    match create_environment p w cmd_base with
    | Except.error e => Except.error e
    | Except.ok (call, output) =>
        Except.ok ([call],
          { changed := true, id := output.id, client_id := output.client_id,
            client_secret := output.client_secret, msg := output.msg })
  else if p.state == "absent" then
    match delete_environment p w cmd_base with
    | Except.error e => Except.error e
    | Except.ok (call, output) =>
        Except.ok ([call],
          { changed := true, id := output.id, client_id := output.client_id,
            client_secret := output.client_secret, msg := output.msg })
  else
    Except.error ("NameError: name output is not defined")

/-! Theorems. -/

/-- C1: for every DesiredSpec/ObservedState pair in the asset module,
`get_context` computes `do_nothing` exactly per the decision table: for state
`absent` it is true iff the asset does not exist; for state `present` on an
existing asset it is true iff no must-update field flag is set and the asset
is not deprecated; for state `deprecated` on an existing asset it is true iff
the asset is already deprecated; for states `present`/`deprecated` on a
non-existing asset it is false. -/
theorem c1_asset_get_context_decision_table (p : AssetParams) (resp : GraphQLResponse)
    (ctx : AssetContext) (h : get_context p resp = Except.ok ctx) :
    (p.state = "absent" → ctx.do_nothing = !ctx.exists_) ∧
    (p.state = "present" → ctx.exists_ = true →
      (ctx.do_nothing = true ↔
        (ctx.exchange_must_update_name = false ∧ ctx.exchange_must_update_icon = false ∧
         ctx.exchange_must_update_description = false ∧ ctx.exchange_must_update_tags = false ∧
         ctx.deprecated = false))) ∧
    (p.state = "deprecated" → ctx.exists_ = true → ctx.do_nothing = ctx.deprecated) ∧
    ((p.state = "present" ∨ p.state = "deprecated") → ctx.exists_ = false →
      ctx.do_nothing = false) := by
  unfold get_context at h
  cases hl : look_asset_on_exchange p resp with
  | error e => rw [hl] at h; exact absurd h (by simp)
  | ok asset_id =>
    rw [hl] at h
    simp only at h
    split at h
    case isTrue hc1 =>
      simp only [Bool.or_eq_true, beq_iff_eq] at hc1
      split at h
      case isTrue hex =>
        split at h
        case isTrue hpres =>
          simp only [beq_iff_eq] at hpres
          simp only [Except.ok.injEq] at h
          subst h
          refine ⟨?_, ?_, ?_, ?_⟩
          · intro hs; rw [hpres] at hs; exact absurd hs (by decide)
          · intro _ _
            simp only [analyze_asset]
            constructor
            · intro hdn
              simp only [Bool.and_eq_true, Bool.not_eq_true', Bool.or_eq_false_iff] at hdn
              exact ⟨hdn.1.1.1.1, hdn.1.1.1.2, hdn.1.1.2, hdn.1.2, hdn.2⟩
            · rintro ⟨h1, h2, h3, h4, h5⟩
              simp only [Bool.and_eq_true, Bool.not_eq_true', Bool.or_eq_false_iff]
              exact ⟨⟨⟨⟨h1, h2⟩, h3⟩, h4⟩, h5⟩
          · intro hs; rw [hpres] at hs; exact absurd hs (by decide)
          · intro _ hne
            have hne2 : asset_id.isSome = false := hne
            rw [hne2] at hex
            exact absurd hex (by decide)
        case isFalse hpres =>
          simp only [beq_iff_eq] at hpres
          have hdep : p.state = "deprecated" := by
            rcases hc1 with hc | hc
            · exact absurd hc hpres
            · exact hc
          simp only [Except.ok.injEq] at h
          subst h
          refine ⟨?_, ?_, ?_, ?_⟩
          · intro hs; rw [hdep] at hs; exact absurd hs (by decide)
          · intro hs; exact absurd hs hpres
          · intro _ _; rfl
          · intro _ hne
            have hne2 : asset_id.isSome = false := hne
            rw [hne2] at hex
            exact absurd hex (by decide)
      case isFalse hex =>
        simp only [Except.ok.injEq] at h
        subst h
        refine ⟨?_, ?_, ?_, ?_⟩
        · intro hs
          rcases hc1 with hc | hc <;> (rw [hs] at hc; exact absurd hc (by decide))
        · intro _ hextrue; exact absurd hextrue (by simpa using hex)
        · intro _ hextrue; exact absurd hextrue (by simpa using hex)
        · intro _ _; rfl
    case isFalse hc1 =>
      simp only [Bool.or_eq_true, beq_iff_eq, not_or] at hc1
      split at h
      case isTrue habs =>
        simp only [beq_iff_eq] at habs
        simp only [Except.ok.injEq] at h
        subst h
        refine ⟨?_, ?_, ?_, ?_⟩
        · intro _; rfl
        · intro hs; exact absurd hs hc1.1
        · intro hs; exact absurd hs hc1.2
        · rintro (hs | hs)
          · exact absurd hs hc1.1
          · exact absurd hs hc1.2
      case isFalse habs =>
        simp only [beq_iff_eq] at habs
        simp only [Except.ok.injEq] at h
        subst h
        refine ⟨?_, ?_, ?_, ?_⟩
        · intro hs; exact absurd hs habs
        · intro hs; exact absurd hs hc1.1
        · intro hs; exact absurd hs hc1.2
        · intro _ _; rfl

/-- Sample asset-module parameters used by the concrete witnesses below. -/
def sampleAssetParams : AssetParams where
  name := "n"
  state := "present"
  bearer := "b"
  host := "h"
  organization := "o"
  organization_id := "oid"
  type := "custom"
  group_id := "g"
  asset_id := "i"
  asset_version := "v"
  api_version := "1.0"
  main_file := none
  file_path := none
  tags := []
  description := none
  icon := none
  maven := none

/-- Sample asset-module world: binaries present, real run, asset not found,
every executed command exits 0. -/
def sampleAssetWorld : AssetWorld where
  anypointcli_path := some ("a")
  maven_path := some ("m")
  check_mode := false
  graphql := GraphQLResponse.errors 404 ("nf")
  exec := fun _ => { code := 0, out := "out" }
  modify_out := "mod"
  delete_out := "del"

/-- The context `get_context` computes for state `absent` on a missing
asset. -/
def sampleCtxAbsent : AssetContext where
  do_nothing := true
  exists_ := false
  exchange_must_update := false
  exchange_must_update_name := false
  exchange_must_update_icon := false
  exchange_must_update_description := false
  exchange_must_update_tags := false
  deprecated := false

/-- C1 witness: the decision table evaluated at a concrete input (state
`absent`, asset not found on Exchange). -/
theorem c1_witness : sampleCtxAbsent.do_nothing = !sampleCtxAbsent.exists_ :=
  (c1_asset_get_context_decision_table { sampleAssetParams with state := "absent" }
    (GraphQLResponse.errors 404 ("nf")) sampleCtxAbsent rfl).1 rfl

/-- C8: the asset lookup treats a query error with status 404 as NotFound
(no asset, no failure), fails fatally on any query error with a non-404
status, and treats a returned record as found exactly when group id, asset
id, version and declared type all match the requested values — otherwise
NotFound. -/
theorem c8_look_asset_classification (p : AssetParams) (status : Int) (message : String)
    (item : ExchangeAsset) (rest : List ExchangeAsset) :
    (status = 404 →
      look_asset_on_exchange p (GraphQLResponse.errors status message) = Except.ok none) ∧
    (status ≠ 404 →
      ∃ e, look_asset_on_exchange p (GraphQLResponse.errors status message) = Except.error e) ∧
    (look_asset_on_exchange p (GraphQLResponse.data (item :: rest)) =
      if p.asset_id = item.assetId ∧ p.group_id = item.groupId ∧
          p.asset_version = item.version ∧ p.type = item.type then
        Except.ok (some item.assetId)
      else
        Except.ok none) := by
  refine ⟨?_, ?_, ?_⟩
  · intro hs; subst hs; simp [look_asset_on_exchange]
  · intro hs
    refine ⟨("[look_asset_on_exchange] Error looking for asset on exchange: ") ++ message, ?_⟩
    simp [look_asset_on_exchange, bne_iff_ne, hs]
  · simp only [look_asset_on_exchange, Bool.and_eq_true, beq_iff_eq, and_assoc]

/-- C8 witness: a 404-classed query error at a concrete input maps to
NotFound rather than failure. -/
theorem c8_witness :
    look_asset_on_exchange sampleAssetParams (GraphQLResponse.errors 404 ("boom")) =
      Except.ok none :=
  (c8_look_asset_classification sampleAssetParams 404 ("boom") default []).1 rfl

/-- C7: in the environment module, state `present` on an existing environment
always yields `do_nothing = true` (no field of the existing environment is
diffed or updated in place) and on a missing one `do_nothing = false`; for
state `absent`, `do_nothing` is true iff the environment does not exist. -/
theorem c7_env_get_context_policy (q : EnvParams) (v : EnvWorld) (ctx : EnvContext)
    (h : env_get_context q v = Except.ok ctx) :
    (q.state = "present" →
      ((∃ r, get_environment v.describe1 = Except.ok (some r)) → ctx.do_nothing = true) ∧
      (get_environment v.describe1 = Except.ok none → ctx.do_nothing = false)) ∧
    (q.state = "absent" →
      (ctx.do_nothing = true ↔ get_environment v.describe1 = Except.ok none)) := by
  unfold env_get_context at h
  cases hg : get_environment v.describe1 with
  | error e => rw [hg] at h; exact absurd h (by simp)
  | ok resp_json =>
    rw [hg] at h
    simp only at h
    cases resp_json with
    | some r =>
      split at h
      case isTrue habs =>
        simp only [beq_iff_eq] at habs
        simp only [Except.ok.injEq] at h
        subst h
        constructor
        · intro hs; rw [habs] at hs; exact absurd hs (by decide)
        · intro _
          constructor
          · intro hdn; simp at hdn
          · intro hok; simp at hok
      case isFalse habs =>
        split at h
        case isTrue hpres =>
          split at h
          case isTrue hid => simp at hid
          case isFalse hid =>
            cases ho : get_org_id q v with
            | error e => rw [ho] at h; exact absurd h (by simp)
            | ok org_id =>
              rw [ho] at h
              simp only [Except.ok.injEq] at h
              subst h
              simp only [beq_iff_eq] at hpres
              constructor
              · intro _
                exact ⟨fun _ => rfl, fun hok => by simp at hok⟩
              · intro hs; rw [hpres] at hs; exact absurd hs (by decide)
        case isFalse hpres =>
          simp only [Except.ok.injEq] at h
          subst h
          simp only [beq_iff_eq] at habs hpres
          exact ⟨fun hs => absurd hs hpres, fun hs => absurd hs habs⟩
    | none =>
      split at h
      case isTrue habs =>
        simp only [Except.ok.injEq] at h
        subst h
        simp only [beq_iff_eq] at habs
        constructor
        · intro hs; rw [habs] at hs; exact absurd hs (by decide)
        · intro _
          exact ⟨fun _ => rfl, fun _ => rfl⟩
      case isFalse habs =>
        split at h
        case isTrue hpres =>
          split at h
          case isTrue hid =>
            simp only [Except.ok.injEq] at h
            subst h
            simp only [beq_iff_eq] at hpres
            constructor
            · intro _
              constructor
              · rintro ⟨r, hok⟩; simp at hok
              · intro _; rfl
            · intro hs; rw [hpres] at hs; exact absurd hs (by decide)
          case isFalse hid => simp at hid
        case isFalse hpres =>
          simp only [Except.ok.injEq] at h
          subst h
          simp only [beq_iff_eq] at habs hpres
          exact ⟨fun hs => absurd hs hpres, fun hs => absurd hs habs⟩

/-- Sample environment-module parameters used by the concrete witnesses
below. -/
def sampleEnvParams : EnvParams where
  name := "e"
  state := "present"
  bearer := "b"
  host := "h"
  organization := "o"
  type := "sandbox"

/-- Sample environment-module world: binary present, real run, the
environment exists with id `id1` and client id `cid1`, every executed
command exits 0. -/
def sampleEnvWorld : EnvWorld where
  anypointcli_path := some ("a")
  check_mode := false
  describe1 := DescribeResult.parsed { ID := "id1", clientID := "cid1" }
  describe2 := DescribeResult.parsed { ID := "id1", clientID := "cid1" }
  org_id := some ("org1")
  client_secret_of := fun _ _ => some ("sec")
  exec := fun _ => { code := 0, out := "ok" }

/-- C7 witness: state `present` on a concrete existing environment yields
`do_nothing = true`. -/
theorem c7_witness :
    ({ do_nothing := true, id := some ("id1"), client_id := some ("cid1"),
       client_secret := some ("sec") } : EnvContext).do_nothing = true :=
  ((c7_env_get_context_policy sampleEnvParams sampleEnvWorld
      { do_nothing := true, id := some ("id1"), client_id := some ("cid1"),
        client_secret := some ("sec") } rfl).1 rfl).1
    ⟨{ ID := "id1", clientID := "cid1" }, rfl⟩

/-- C9 counterexample: the claim reads "returns NotFound (an empty record)
when the call fails with the known sentinel message
`Error: Environment not found`", but `get_environment` only recognises the
sentinel together with exit code 255 (line 167); a failure with exit code 1
and the very same message is fatal, not NotFound. -/
theorem c9_counterexample :
    get_environment (DescribeResult.failed 1 ("Error: Environment not found")) =
        Except.error ("Error: Environment not found") ∧
    get_environment (DescribeResult.failed 1 ("Error: Environment not found")) ≠
        Except.ok none := by
  constructor
  · rfl
  · intro h
    rw [show get_environment (DescribeResult.failed 1 ("Error: Environment not found")) =
        Except.error ("Error: Environment not found") from rfl] at h
    exact absurd h (by simp)

/-- C9 amended: `get_environment` returns the parsed record when the describe
CLI call exits 0, returns NotFound (the empty record) exactly when the call
exits with code 255 and its output with newlines removed equals the sentinel
`Error: Environment not found`, and fails fatally on every other non-zero
exit. -/
theorem c9_amended_get_environment (d : DescribeResult) :
    (∀ r, d = DescribeResult.parsed r → get_environment d = Except.ok (some r)) ∧
    (∀ code out, d = DescribeResult.failed code out →
      (code = 255 ∧ strip_nl out = ("Error: Environment not found") →
        get_environment d = Except.ok none) ∧
      (¬(code = 255 ∧ strip_nl out = ("Error: Environment not found")) →
        get_environment d = Except.error out)) := by
  constructor
  · intro r hr; subst hr; rfl
  · intro code out hd
    subst hd
    constructor
    · rintro ⟨hc, ho⟩
      subst hc
      simp [get_environment, ho]
    · intro hno
      simp only [get_environment]
      rw [if_neg ?_]
      intro hb
      simp only [Bool.and_eq_true, beq_iff_eq] at hb
      exact hno hb

/-- C9 witness: a concrete exit-255 describe failure with the sentinel
message yields NotFound. -/
theorem c9_witness :
    get_environment (DescribeResult.failed 255 ("Error: Environment not found\n")) =
      Except.ok none :=
  ((c9_amended_get_environment
      (DescribeResult.failed 255 ("Error: Environment not found\n"))).2
    255 ("Error: Environment not found\n") rfl).1 ⟨rfl, by decide⟩

/-- C10: for state `absent` on an existing environment, the run reports
`changed = true` while `id`, `client_id` and `client_secret` are all `None`:
the delete path overwrites the identifiers discovered during the existence
check with the all-None record `delete_environment` returns, and issues
exactly one delete call. -/
theorem c10_env_delete_overwrites_identifiers (q : EnvParams) (v : EnvWorld)
    (tr : List EnvCall) (res : EnvResult)
    (hstate : q.state = "absent") (hcheck : v.check_mode = false)
    (hex : ∃ r, get_environment v.describe1 = Except.ok (some r))
    (hrun : env_run_module q v = Except.ok (tr, res)) :
    res.changed = true ∧ res.id = none ∧ res.client_id = none ∧
    res.client_secret = none ∧ ∃ cmd, tr = [EnvCall.delete cmd] := by
  obtain ⟨r, hg⟩ := hex
  have hctx : env_get_context q v = Except.ok
      { do_nothing := false, id := some r.ID, client_id := some r.clientID,
        client_secret := none } := by
    unfold env_get_context
    rw [hg, hstate]
    simp
  unfold env_run_module at hrun
  cases hp : v.anypointcli_path with
  | none => rw [hp] at hrun; exact absurd hrun (by simp)
  | some cli_path =>
    rw [hp, hcheck, hctx, hstate] at hrun
    simp only [Bool.false_eq_true, if_false, beq_iff_eq, reduceIte] at hrun
    rw [if_neg (by decide : ¬(("absent" : String) = "present"))] at hrun
    split at hrun
    · exact absurd hrun (by simp)
    next call output hd =>
      unfold delete_environment at hd
      dsimp only at hd
      split at hd
      · exact absurd hd (by simp)
      · simp only [Except.ok.injEq, Prod.mk.injEq] at hd
        obtain ⟨hcall, hout⟩ := hd
        subst hcall
        subst hout
        simp only [Except.ok.injEq, Prod.mk.injEq] at hrun
        obtain ⟨htr, hres⟩ := hrun
        subst htr
        subst hres
        exact ⟨rfl, rfl, rfl, rfl, ⟨_, rfl⟩⟩

/-- The result record of the concrete absent-run used by the C10 witness. -/
def c10res : EnvResult where
  changed := true
  id := none
  client_id := none
  client_secret := none
  msg := "environment deleted"

/-- The call trace of the concrete absent-run used by the C10 witness. -/
def c10tr : List EnvCall :=
  [EnvCall.delete
    ("a --bearer=\"b\" --organization=\"o\" --host=\"h\" account environment delete \"e\"")]

/-- C10 witness: the concrete absent-run on an existing environment. -/
theorem c10_witness :
    c10res.changed = true ∧ c10res.id = none ∧ c10res.client_id = none ∧
    c10res.client_secret = none ∧ ∃ cmd, c10tr = [EnvCall.delete cmd] :=
  c10_env_delete_overwrites_identifiers { sampleEnvParams with state := "absent" }
    sampleEnvWorld c10tr c10res rfl rfl ⟨{ ID := "id1", clientID := "cid1" }, rfl⟩ rfl

/-- C4: the failing input.  With state `present`, type `example` and an
explicit `file_path`, but the optional `maven` dict omitted (None),
`run_module` fails with the line-537 configuration error before reading any
state — although the module's own documentation says `maven` is "Not
required if you already specified C(file_path) option".  The line-536 check
reads the undeclared suboption key `project_dir` (see
`maven_get_project_dir`), so it reduces to `maven is None` and never
consults `file_path`. -/
theorem c4_failing_input :
    asset_run_module
        { sampleAssetParams with type := "example", file_path := some ("/tmp/a.jar") }
        sampleAssetWorld =
      Except.error ("asset type template or example requires a project directory to build it") :=
  rfl

/-- The classifier table exactly as the spec states it: a pure function of
the pair (declared type, file extension); pairs outside the table have no
classifier. -/
def classifier_table (ty ext : String) : Option String :=
  if ty = "connector" ∧ ext = ".zip" then some ("studio-plugin")
  else if ty = "extension" ∧ ext = ".jar" then some ("mule-plugin")
  else if ty = "policy" ∧ ext = ".jar" then some ("mule-policy")
  else if ty = "example" ∧ ext = ".jar" then some ("mule-application-example")
  else if ty = "template" ∧ ext = ".jar" then some ("mule-application-template")
  else none

/-- The deploy-file goal string the module builds before the classifier flag
(ap_exchange_asset.py, lines 422-431). -/
def deploy_file_cmd_head (p : AssetParams) (file_path : String) : String :=
  ("deploy:deploy-file -s \"") ++ get_settings_xml_path p ++ ("\"")
    ++ (" -Dfile=\"") ++ file_path ++ ("\" -DrepositoryId=Repository -DartifactId=")
    ++ p.asset_id ++ (" -DgroupId=") ++ p.group_id ++ (" -Dversion=") ++ p.asset_version

/-- C3: on the deploy-file upload path, classifier selection is a pure
function of the pair (declared type, extension of `file_path`) given by
`classifier_table`; for every pair inside the table the module invokes the
build tool with exactly that classifier flag (then sets the asset name and
updates the metadata), and for every other pair reaching this path it fails
with a configuration error before invoking the build tool. -/
theorem c3_classifier_selection (w : AssetWorld) (p : AssetParams)
    (cmd_base ident fp : String)
    (hfp : p.file_path = some fp)
    (hty : p.type = "connector" ∨ p.type = "extension" ∨ p.type = "policy"
        ∨ p.type = "example" ∨ p.type = "template")
    (hexec : ∀ c, (w.exec c).code = 0) :
    match classifier_table p.type (splitext_ext fp) with
    | some cls =>
        upload_exchange_asset w p cmd_base ident =
          Except.ok ([AssetCall.maven
              (deploy_file_cmd_head p fp ++ (" -Dclassifier=") ++ cls ++ (" -Durl=")
                ++ get_distribution_repository_url p),
            AssetCall.set_asset_name, AssetCall.modify_asset], "Asset uploaded")
    | none =>
        upload_exchange_asset w p cmd_base ident =
          Except.error (("[upload_exchange_asset] invalid file extension for ") ++ p.type
            ++ (" asset type (only supported .zip for mule 3 and .jar for mule 4)")) := by
  rcases hty with hty | hty | hty | hty | hty
  · by_cases hE : splitext_ext fp = ".zip"
    · simp [upload_exchange_asset, classifier_table, hty, hfp, hE, execute_maven, hexec,
        deploy_file_cmd_head, String.append_assoc]
    · simp [upload_exchange_asset, classifier_table, hty, hfp, hE, execute_maven, hexec]
  · by_cases hE : splitext_ext fp = ".jar"
    · simp [upload_exchange_asset, classifier_table, hty, hfp, hE, execute_maven, hexec,
        deploy_file_cmd_head, String.append_assoc]
    · simp [upload_exchange_asset, classifier_table, hty, hfp, hE, execute_maven, hexec]
  · by_cases hE : splitext_ext fp = ".jar"
    · simp [upload_exchange_asset, classifier_table, hty, hfp, hE, execute_maven, hexec,
        deploy_file_cmd_head, String.append_assoc]
    · simp [upload_exchange_asset, classifier_table, hty, hfp, hE, execute_maven, hexec]
  · by_cases hE : splitext_ext fp = ".jar"
    · simp [upload_exchange_asset, classifier_table, hty, hfp, hE, execute_maven, hexec,
        deploy_file_cmd_head, String.append_assoc]
    · simp [upload_exchange_asset, classifier_table, hty, hfp, hE, execute_maven, hexec]
  · by_cases hE : splitext_ext fp = ".jar"
    · simp [upload_exchange_asset, classifier_table, hty, hfp, hE, execute_maven, hexec,
        deploy_file_cmd_head, String.append_assoc]
    · simp [upload_exchange_asset, classifier_table, hty, hfp, hE, execute_maven, hexec]

/-- Concrete parameters for the C3 witness: a Mule 3 connector with a `.zip`
file. -/
def c3P : AssetParams :=
  { sampleAssetParams with type := "connector", file_path := some ("/d/f.zip") }

/-- C3 witness: the concrete pair (connector, .zip) selects the
`studio-plugin` classifier and invokes the build tool. -/
theorem c3_witness :
    upload_exchange_asset sampleAssetWorld c3P ("CB") ("g/i/v") =
      Except.ok ([AssetCall.maven
          (deploy_file_cmd_head c3P ("/d/f.zip") ++ (" -Dclassifier=") ++ ("studio-plugin")
            ++ (" -Durl=") ++ get_distribution_repository_url c3P),
        AssetCall.set_asset_name, AssetCall.modify_asset], "Asset uploaded") := by
  have h := c3_classifier_selection sampleAssetWorld c3P ("CB") ("g/i/v") ("/d/f.zip")
    rfl (Or.inl rfl) (fun c => rfl)
  rw [show splitext_ext ("/d/f.zip") = (".zip") from rfl] at h
  rw [show c3P.type = ("connector") from rfl] at h
  simpa [classifier_table] using h

/-- Shape of every successful `upload_exchange_asset` run: the return value
is `Asset uploaded`, the last issued call is the unconditional
`modify_exchange_asset` metadata update, every earlier call is create-class
(a CLI upload, a maven invocation, or the post-deploy set-asset-name call),
and for the eight declared asset types the first call is a CLI upload or a
maven invocation. -/
theorem upload_trace_shape (w : AssetWorld) (p : AssetParams) (cmd_base ident : String)
    (cs : List AssetCall) (out : String)
    (h : upload_exchange_asset w p cmd_base ident = Except.ok (cs, out)) :
    out = "Asset uploaded" ∧
    cs.getLast? = some AssetCall.modify_asset ∧
    (∀ c ∈ cs.dropLast, (∃ s, c = AssetCall.cli s) ∨ (∃ s, c = AssetCall.maven s)
        ∨ c = AssetCall.set_asset_name) ∧
    ((p.type = "custom" ∨ p.type = "oas" ∨ p.type = "wsdl" ∨ p.type = "example"
        ∨ p.type = "template" ∨ p.type = "connector" ∨ p.type = "extension"
        ∨ p.type = "policy") →
      ∃ c rest, cs = c :: rest ∧
        ((∃ s, c = AssetCall.cli s) ∨ (∃ s, c = AssetCall.maven s))) := by
  unfold upload_exchange_asset at h
  dsimp only at h
  split at h
  · -- custom / oas / wsdl: CLI upload then modify
    split at h
    · exact absurd h (by simp)
    · simp only [Except.ok.injEq, Prod.mk.injEq] at h
      obtain ⟨h1, h2⟩ := h
      subst h1
      subst h2
      exact ⟨rfl, by simp, by simp, fun _ => ⟨_, _, rfl, Or.inl ⟨_, rfl⟩⟩⟩
  · split at h
    · -- example / template / connector / extension / policy
      split at h
      · -- sources build
        split at h
        · exact absurd h (by simp)
        · split at h
          · split at h
            · exact absurd h (by simp)
            · simp only [Except.ok.injEq, Prod.mk.injEq] at h
              obtain ⟨h1, h2⟩ := h
              subst h1
              subst h2
              exact ⟨rfl, by simp, by simp, fun _ => ⟨_, _, rfl, Or.inr ⟨_, rfl⟩⟩⟩
          · exact absurd h (by simp)
      · -- deploy-file
        split at h
        · exact absurd h (by simp)
        · split at h
          · exact absurd h (by simp)
          · split at h
            · exact absurd h (by simp)
            · simp only [Except.ok.injEq, Prod.mk.injEq] at h
              obtain ⟨h1, h2⟩ := h
              subst h1
              subst h2
              exact ⟨rfl, by simp, by simp, fun _ => ⟨_, _, rfl, Or.inr ⟨_, rfl⟩⟩⟩
    · -- a type outside the declared choices: unreachable for the eight types
      next hc1 hc2 =>
        simp only [Except.ok.injEq, Prod.mk.injEq] at h
        obtain ⟨h1, h2⟩ := h
        subst h1
        subst h2
        refine ⟨rfl, by simp, by simp, ?_⟩
        intro hty
        simp only [Bool.or_eq_true, beq_iff_eq, not_or] at hc1 hc2
        rcases hty with hty | hty | hty | hty | hty | hty | hty | hty <;>
          simp [hty] at hc1 hc2

/-- C6: every creation path of `upload_exchange_asset` (CLI upload for
custom/oas/wsdl, deploy-file, and build-from-source) ends with an
unconditional metadata-update call; in particular, for an absent asset with
state `present`, type `custom` and no file, the run issues exactly one
metadata-only upload call followed by one metadata-update call and reports
`changed = true`. -/
theorem c6_unconditional_metadata_update :
    (∀ w p cmd_base ident cs out,
      upload_exchange_asset w p cmd_base ident = Except.ok (cs, out) →
      cs.getLast? = some AssetCall.modify_asset) ∧
    (∀ (w : AssetWorld) (p : AssetParams) tr res,
      w.anypointcli_path.isSome = true → w.maven_path.isSome = true →
      w.check_mode = false →
      (normalize_params p).state = "present" →
      (normalize_params p).type = "custom" →
      (normalize_params p).file_path = none →
      look_asset_on_exchange (normalize_params p) w.graphql = Except.ok none →
      asset_run_module p w = Except.ok (tr, res) →
      ∃ cmd, tr = [AssetCall.cli cmd, AssetCall.modify_asset] ∧ res.changed = true) := by
  constructor
  · intro w p cmd_base ident cs out h
    exact (upload_trace_shape w p cmd_base ident cs out h).2.1
  · intro w p tr res h1 h2 hcheck hstate htype hfile hlook hrun
    obtain ⟨cli_path, hp⟩ := Option.isSome_iff_exists.mp h1
    obtain ⟨maven_path, hm⟩ := Option.isSome_iff_exists.mp h2
    have hctx : get_context (normalize_params p) w.graphql = Except.ok
        { do_nothing := false, exists_ := false, exchange_must_update := false,
          exchange_must_update_name := false, exchange_must_update_icon := false,
          exchange_must_update_description := false, exchange_must_update_tags := false,
          deprecated := false } := by
      unfold get_context
      rw [hlook, hstate]
      simp
    unfold asset_run_module at hrun
    rw [hp, hm, hcheck] at hrun
    dsimp only at hrun
    rw [hctx] at hrun
    simp only [hstate, htype, Bool.false_eq_true, if_false] at hrun
    simp at hrun
    split at hrun
    · exact absurd hrun (by simp)
    next calls output hup =>
      unfold upload_exchange_asset at hup
      rw [htype, hfile] at hup
      simp at hup
      repeat' split at hup
      all_goals simp only [Except.ok.injEq, Prod.mk.injEq, reduceCtorEq] at hup
      all_goals
        (obtain ⟨hcs, hout⟩ := hup
         subst hcs
         simp only [Except.ok.injEq, Prod.mk.injEq] at hrun
         obtain ⟨htr, hres⟩ := hrun
         subst htr
         subst hres
         exact ⟨_, rfl, rfl⟩)

/-- The metadata-only upload command issued by the concrete C6 scenario
run. -/
def sampleUploadCmd : String :=
  "a --bearer=\"b\" --host=\"h\" --organization=\"o\" exchange asset upload --name \"n\" --classifier \"custom\" \"g/i/v\""

/-- C6 witness: a concrete creation trace ends with the metadata update, and
the concrete absent/present/custom/no-file run issues exactly one upload
call followed by one metadata-update call with `changed = true`. -/
theorem c6_witness :
    (([AssetCall.cli ("CB upload --name \"n\" --classifier \"custom\" \"g/i/v\""),
        AssetCall.modify_asset] : List AssetCall).getLast? = some AssetCall.modify_asset) ∧
    (∃ cmd, ([AssetCall.cli sampleUploadCmd, AssetCall.modify_asset] : List AssetCall) =
        [AssetCall.cli cmd, AssetCall.modify_asset] ∧
      ({ changed := true, msg := "Asset uploaded" } : AssetResult).changed = true) := by
  constructor
  · exact c6_unconditional_metadata_update.1 sampleAssetWorld sampleAssetParams
      ("CB") ("g/i/v")
      [AssetCall.cli ("CB upload --name \"n\" --classifier \"custom\" \"g/i/v\""),
        AssetCall.modify_asset]
      ("Asset uploaded") rfl
  · exact c6_unconditional_metadata_update.2 sampleAssetWorld sampleAssetParams
      [AssetCall.cli sampleUploadCmd, AssetCall.modify_asset]
      { changed := true, msg := "Asset uploaded" }
      rfl rfl rfl rfl rfl rfl rfl rfl

/-- C5: for state `deprecated` on an asset that does not exist, the executor
issues the mutating calls in the fixed order: the create/upload calls first
(the trace starts with a CLI upload or a maven invocation and every call
before the metadata update is create-class), then the metadata-update call,
then the deprecate call strictly last — never reordered. -/
theorem c5_deprecated_on_missing_order (w : AssetWorld) (p : AssetParams)
    (tr : List AssetCall) (res : AssetResult)
    (h1 : w.anypointcli_path.isSome = true) (h2 : w.maven_path.isSome = true)
    (hcheck : w.check_mode = false)
    (hstate : (normalize_params p).state = "deprecated")
    (hty : (normalize_params p).type = "custom" ∨ (normalize_params p).type = "oas"
        ∨ (normalize_params p).type = "wsdl" ∨ (normalize_params p).type = "example"
        ∨ (normalize_params p).type = "template" ∨ (normalize_params p).type = "connector"
        ∨ (normalize_params p).type = "extension" ∨ (normalize_params p).type = "policy")
    (hlook : look_asset_on_exchange (normalize_params p) w.graphql = Except.ok none)
    (hrun : asset_run_module p w = Except.ok (tr, res)) :
    ∃ cs dep_cmd,
      tr = cs ++ [AssetCall.cli dep_cmd] ∧
      cs.getLast? = some AssetCall.modify_asset ∧
      (∀ c ∈ cs.dropLast, (∃ s, c = AssetCall.cli s) ∨ (∃ s, c = AssetCall.maven s)
          ∨ c = AssetCall.set_asset_name) ∧
      (∃ c rest, cs = c :: rest ∧
        ((∃ s, c = AssetCall.cli s) ∨ (∃ s, c = AssetCall.maven s))) ∧
      (∃ s1, dep_cmd = s1 ++ (" deprecate \"")
        ++ get_asset_identifier (normalize_params p).group_id (normalize_params p).asset_id
            (normalize_params p).asset_version ++ ("\"")) ∧
      res.changed = true := by
  obtain ⟨cli_path, hp⟩ := Option.isSome_iff_exists.mp h1
  obtain ⟨maven_path, hm⟩ := Option.isSome_iff_exists.mp h2
  have hctx : get_context (normalize_params p) w.graphql = Except.ok
      { do_nothing := false, exists_ := false, exchange_must_update := false,
        exchange_must_update_name := false, exchange_must_update_icon := false,
        exchange_must_update_description := false, exchange_must_update_tags := false,
        deprecated := false } := by
    unfold get_context
    rw [hlook, hstate]
    simp
  unfold asset_run_module at hrun
  rw [hp, hm, hcheck] at hrun
  dsimp only at hrun
  rw [hctx] at hrun
  simp only [hstate, Bool.false_eq_true, if_false] at hrun
  simp at hrun
  split at hrun
  · exact absurd hrun (by simp)
  next calls1 out1 hup =>
    split at hrun
    · exact absurd hrun (by simp)
    next out hdep =>
      simp only [Except.ok.injEq, Prod.mk.injEq] at hrun
      obtain ⟨htr, hres⟩ := hrun
      subst htr
      subst hres
      have hshape := upload_trace_shape w (normalize_params p) _ _ calls1 out1 hup
      exact ⟨calls1, _, rfl, hshape.2.1, hshape.2.2.1, hshape.2.2.2 hty, ⟨_, rfl⟩, rfl⟩

/-- Parameters of the concrete C5 witness run: state `deprecated`, type
`custom`, asset absent. -/
def c5P : AssetParams := { sampleAssetParams with state := "deprecated" }

/-- The deprecate command issued by the concrete C5 witness run. -/
def c5dep : String :=
  "a --bearer=\"b\" --host=\"h\" --organization=\"o\" exchange asset deprecate \"g/i/v\""

/-- C5 witness: the concrete deprecated-run on a missing asset issues
upload, then metadata update, then deprecate, in that order. -/
theorem c5_witness :
    ∃ cs dep_cmd,
      ([AssetCall.cli sampleUploadCmd, AssetCall.modify_asset,
          AssetCall.cli c5dep] : List AssetCall) = cs ++ [AssetCall.cli dep_cmd] ∧
      cs.getLast? = some AssetCall.modify_asset ∧
      (∀ c ∈ cs.dropLast, (∃ s, c = AssetCall.cli s) ∨ (∃ s, c = AssetCall.maven s)
          ∨ c = AssetCall.set_asset_name) ∧
      (∃ c rest, cs = c :: rest ∧
        ((∃ s, c = AssetCall.cli s) ∨ (∃ s, c = AssetCall.maven s))) ∧
      (∃ s1, dep_cmd = s1 ++ (" deprecate \"")
        ++ get_asset_identifier (normalize_params c5P).group_id (normalize_params c5P).asset_id
            (normalize_params c5P).asset_version ++ ("\"")) ∧
      ({ changed := true, msg := "out" } : AssetResult).changed = true :=
  c5_deprecated_on_missing_order sampleAssetWorld c5P
    [AssetCall.cli sampleUploadCmd, AssetCall.modify_asset, AssetCall.cli c5dep]
    { changed := true, msg := "out" }
    rfl rfl rfl rfl (Or.inl rfl) rfl rfl

/-- When `found_record` yields a record, the lookup reports it found. -/
theorem look_of_found (p : AssetParams) (resp : GraphQLResponse) (r : ExchangeAsset)
    (h : found_record p resp = some r) :
    look_asset_on_exchange p resp = Except.ok (some r.assetId) := by
  unfold found_record at h
  split at h
  next item rest =>
    unfold look_asset_on_exchange
    dsimp only
    split at h
    next hcond =>
      simp only [Option.some.injEq] at h
      subst h
      rw [if_pos hcond]
    next => exact absurd h (by simp)
  next => exact absurd h (by simp)

/-- The line-536 validation condition is false whenever its propositional
reading is: the `project_dir` lookup is always `None`, so the condition
reduces to `maven is None`. -/
theorem validation1_false (p : AssetParams)
    (h : ¬(p.state = "present" ∧ (p.type = "example" ∨ p.type = "template")
        ∧ p.maven = none)) :
    (p.state == "present" && (p.type == "example" || p.type == "template") &&
      match p.maven with
      | none => true
      | some m => maven_get_project_dir m != none) = false := by
  apply Bool.eq_false_iff.mpr
  intro hb
  simp only [Bool.and_eq_true, Bool.or_eq_true, beq_iff_eq] at hb
  obtain ⟨⟨hpres, htmpl⟩, hmv⟩ := hb
  apply h
  refine ⟨hpres, htmpl, ?_⟩
  cases hmvv : p.maven with
  | none => rfl
  | some m => rw [hmvv] at hmv; simp [maven_get_project_dir] at hmv

/-- The line-539 validation condition is false whenever its propositional
reading is. -/
theorem validation2_false (p : AssetParams)
    (h : ¬(p.state = "present" ∧ (p.type = "oas" ∨ p.type = "wsdl" ∨ p.type = "connector"
        ∨ p.type = "extension" ∨ p.type = "policy") ∧ p.file_path = none)) :
    (p.state == "present" &&
      (p.type == "oas" || p.type == "wsdl" || p.type == "connector"
        || p.type == "extension" || p.type == "policy") &&
      p.file_path == none) = false := by
  apply Bool.eq_false_iff.mpr
  intro hb
  simp only [Bool.and_eq_true, Bool.or_eq_true, beq_iff_eq] at hb
  obtain ⟨⟨hpres, hty⟩, hfp⟩ := hb
  apply h
  refine ⟨hpres, ?_, by simpa using hfp⟩
  tauto

/-- The claim's idempotence precondition for the asset module: the observed
platform state already satisfies the desired one.  For `absent` the asset is
not found; for `present`/`deprecated` the matching record exists with every
metadata field equal to the desired one (tags as a set, per §4.2) and the
corresponding deprecation sub-state. -/
def asset_desired_satisfied (p : AssetParams) (resp : GraphQLResponse) : Prop :=
  (p.state = "absent" ∧ look_asset_on_exchange p resp = Except.ok none) ∨
  ((p.state = "present" ∨ p.state = "deprecated") ∧
    ∃ r, found_record p resp = some r ∧
      r.name = p.name ∧ r.description = p.description ∧ r.icon = p.icon ∧
      sameTagSet p.tags r.tags = true ∧
      r.deprecated = (p.state == "deprecated"))

/-- The claim's idempotence precondition for the environment module: absent
and not found, or present and found (with the organization resolvable, as on
the run that created it). -/
def env_desired_satisfied (q : EnvParams) (v : EnvWorld) : Prop :=
  (q.state = "absent" ∧ get_environment v.describe1 = Except.ok none) ∨
  (q.state = "present" ∧ (∃ r, get_environment v.describe1 = Except.ok (some r)) ∧
    v.org_id.isSome = true)

/-- C2: idempotence.  When the observed state already satisfies the desired
state (as after a previous run with the same DesiredSpec faithfully applied
by the platform) and the module-level preconditions of a real run hold (the
binaries are present, not check mode, the parameter validations pass), the
run computes `do_nothing = true`, exits before issuing any mutating call
(empty call trace) and reports `changed = false` — in both the asset module
and the environment module. -/
theorem c2_idempotence (p : AssetParams) (w : AssetWorld) (q : EnvParams) (v : EnvWorld)
    (ha1 : w.anypointcli_path.isSome = true) (ha2 : w.maven_path.isSome = true)
    (ha3 : w.check_mode = false)
    (haval1 : ¬((normalize_params p).state = "present"
        ∧ ((normalize_params p).type = "example" ∨ (normalize_params p).type = "template")
        ∧ (normalize_params p).maven = none))
    (haval2 : ¬((normalize_params p).state = "present"
        ∧ ((normalize_params p).type = "oas" ∨ (normalize_params p).type = "wsdl"
            ∨ (normalize_params p).type = "connector"
            ∨ (normalize_params p).type = "extension"
            ∨ (normalize_params p).type = "policy")
        ∧ (normalize_params p).file_path = none))
    (hasat : asset_desired_satisfied (normalize_params p) w.graphql)
    (he1 : v.anypointcli_path.isSome = true) (he2 : v.check_mode = false)
    (hesat : env_desired_satisfied q v) :
    (∃ res, asset_run_module p w = Except.ok ([], res) ∧ res.changed = false) ∧
    (∃ res, env_run_module q v = Except.ok ([], res) ∧ res.changed = false) := by
  obtain ⟨cli_path, hp⟩ := Option.isSome_iff_exists.mp ha1
  obtain ⟨maven_path, hm⟩ := Option.isSome_iff_exists.mp ha2
  obtain ⟨ecli_path, hep⟩ := Option.isSome_iff_exists.mp he1
  constructor
  · -- asset module
    have hctx : ∃ ctx, get_context (normalize_params p) w.graphql = Except.ok ctx
        ∧ ctx.do_nothing = true := by
      rcases hasat with ⟨hstate, hlook⟩ | ⟨hstpd, r, hfr, hname, hdesc, hicon, htags, hdep⟩
      · refine ⟨⟨true, false, false, false, false, false, false, false⟩, ?_, rfl⟩
        unfold get_context
        rw [hlook, hstate]
        simp
      · rcases hstpd with hstate | hstate
        · refine ⟨⟨true, true, false, false, false, false, false, false⟩, ?_, rfl⟩
          unfold get_context
          rw [look_of_found _ _ _ hfr, hfr, hstate]
          rw [hstate] at hdep
          simp [analyze_asset, hname, hdesc, hicon, htags, hdep]
        · refine ⟨⟨true, true, false, false, false, false, false, true⟩, ?_, rfl⟩
          unfold get_context
          rw [look_of_found _ _ _ hfr, hfr, hstate]
          rw [hstate] at hdep
          simp [analyze_asset, hname, hdesc, hicon, htags, hdep]
    obtain ⟨ctx, hctx, hdn⟩ := hctx
    refine ⟨⟨false, "No action taken"⟩, ?_, rfl⟩
    unfold asset_run_module
    rw [hp, hm, ha3]
    dsimp only
    rw [validation1_false _ haval1, validation2_false _ haval2, hctx]
    simp [hdn]
  · -- environment module
    rcases hesat with ⟨hstate, hok⟩ | ⟨hstate, ⟨r, hok⟩, horg⟩
    · have hctx : env_get_context q v =
          Except.ok ⟨true, none, none, none⟩ := by
        unfold env_get_context
        rw [hok, hstate]
        simp
      refine ⟨⟨false, none, none, none, "No action taken"⟩, ?_, rfl⟩
      unfold env_run_module
      rw [hep, he2, hctx]
      simp
    · obtain ⟨org, horgv⟩ := Option.isSome_iff_exists.mp horg
      have hctx : env_get_context q v = Except.ok
          ⟨true, some r.ID, some r.clientID, v.client_secret_of org r.clientID⟩ := by
        unfold env_get_context
        rw [hok, hstate]
        unfold get_org_id
        rw [horgv]
        simp [get_env_client_secret]
      refine ⟨⟨false, some r.ID, some r.clientID, v.client_secret_of org r.clientID,
        "No action taken"⟩, ?_, rfl⟩
      unfold env_run_module
      rw [hep, he2, hctx]
      simp

/-- The Exchange record of the concrete C2 witness: it matches the sample
desired spec exactly and is not deprecated. -/
def c2rec : ExchangeAsset where
  assetId := "i"
  groupId := "g"
  version := "v"
  type := "custom"
  name := "n"
  description := none
  icon := none
  tags := []
  deprecated := false

/-- The asset world of the concrete C2 witness: the matching asset exists. -/
def c2AssetWorld : AssetWorld :=
  { sampleAssetWorld with graphql := GraphQLResponse.data [c2rec] }

/-- C2 witness: concrete already-satisfied runs of both modules exit with an
empty call trace and `changed = false`. -/
theorem c2_witness :
    (∃ res, asset_run_module sampleAssetParams c2AssetWorld = Except.ok ([], res)
      ∧ res.changed = false) ∧
    (∃ res, env_run_module sampleEnvParams sampleEnvWorld = Except.ok ([], res)
      ∧ res.changed = false) :=
  c2_idempotence sampleAssetParams c2AssetWorld sampleEnvParams sampleEnvWorld
    rfl rfl rfl (by decide) (by decide)
    (Or.inr ⟨Or.inl rfl, c2rec, rfl, rfl, rfl, rfl, rfl, rfl⟩)
    rfl rfl
    (Or.inr ⟨rfl, ⟨⟨"id1", "cid1"⟩, rfl⟩, rfl⟩)

end ApAnypoint
